import Mathlib

/-!
Verification of the Context.ai backend (src/backend/main.py), a
retrieval-augmented question-answering service: document upload with
semantic chunking and vector indexing, and a chat endpoint that retrieves
the nearest chunks and queries a language model.

The HTTP handlers (`upload_document`, `chat_endpoint`) and the startup
logic are embedded directly from src/backend/main.py.  The components the
source delegates to external libraries (the semantic chunker, the vector
store, the document loaders, the language model) are modelled from the
specification where noted: loaders and the language model are opaque
parameters (`Externals`), while the chunker and the vector-store search
are given executable definitions following the spec text.

Embeddings are rational vectors and distances are rationals; the
embedding model and the distance metric are opaque function parameters.
Instrumentation: every embedding-model invocation and every
language-model invocation is recorded as an `Event`, so that properties
such as "the query is embedded with the same model used at ingestion"
and "the language model is called exactly once per chat request" are
statable.
-/

namespace ContextAI

/-! ## Data model -/

/-- Source metadata carried by a loaded page/section and inherited by its
chunks (e.g. originating filename and page number). -/
structure Metadata where
  source : String
  page : Nat
  deriving DecidableEq, Repr

/-- A langchain document: a span of text plus its source metadata. -/
structure Doc where
  page_content : String
  metadata : Metadata
  deriving DecidableEq, Repr

/-- An embedding model: its identity (`model_name`) together with the
text-to-vector function it computes.  The source constructs exactly one
such instance at startup (`HuggingFaceEmbeddings(model_name=...)`). -/
structure Embedder where
  model_name : String
  fn : String → List ℚ

/-- The embedding model name fixed in the source. -/
def MODEL_NAME : String := "sentence-transformers/all-MiniLM-L6-v2"

/-- The uploads directory fixed in the source. -/
def UPLOAD_DIR : String := "uploaded_files"

/-! ## Instrumentation events -/

/-- Which pipeline stage invoked the embedding model. -/
inductive Phase
  | chunking
  | indexing
  | query
  deriving DecidableEq, Repr

/-- Observable external calls made while handling a request: an
embedding-model invocation (tagged with the model name used and the
stage), or a language-model invocation (tagged with the prompt sent). -/
inductive Event
  | embed (model : String) (phase : Phase) (text : String)
  | llmCall (prompt : String)
  deriving DecidableEq, Repr

/-- The embedding-model name an event used, if it is an embed event. -/
def Event.modelOf : Event → Option String
  | .embed m _ _ => some m
  | .llmCall _ => none

/-- Whether an event is a language-model invocation. -/
def Event.isLlmCall : Event → Bool
  | .embed _ _ _ => false
  | .llmCall _ => true

/-! ## Semantic chunker

Modelled from the spec (the implementation lives in the external
`langchain_experimental.text_splitter.SemanticChunker`; the source only
configures it with the shared embedding function and
`breakpoint_threshold_type="percentile"`).  Per the spec: split the text
into sentence-level candidate units; embed each candidate; compute the
distance between each pair of adjacent candidate embeddings; a distance
is a breakpoint exactly when it exceeds (strictly) a statistically
derived threshold computed from the distribution of all adjacent
distances; merge consecutive candidates between breakpoints into one
chunk.  The threshold strategy is a configuration option with three
valid values: percentile, standard deviation, interquartile. -/

/-- The sentence delimiter used by the candidate-unit splitter model. -/
def sentenceSep : Char := Char.ofNat 46

/-- Modelled from the spec: split text into sentence-level candidate
units (at occurrences of the sentence delimiter). -/
def splitSentences (text : String) : List String :=
  (text.toList.splitOn sentenceSep).map (fun cs => String.mk cs)

/-- Rejoin candidate units with the sentence delimiter (inverse of
`splitSentences`), giving the text a chunk covers. -/
def joinSentences (ss : List String) : String :=
  String.mk (List.intercalate [sentenceSep] (ss.map String.toList))

/-- Arithmetic mean of a list of rationals (0 on the empty list, whose
quotient by the zero length is 0 in ℚ). -/
def mean (xs : List ℚ) : ℚ := xs.sum / (xs.length : ℚ)

/-- Population variance of a list of rationals. -/
def variance (xs : List ℚ) : ℚ := mean (xs.map (fun x => (x - mean xs) ^ 2))

/-- Insert into a sorted list (generic insertion step, Boolean order). -/
def insertLe {α : Type} (le : α → α → Bool) (x : α) : List α → List α
  | [] => [x]
  | y :: ys => if le x y then x :: y :: ys else y :: insertLe le x ys

/-- Insertion sort by a Boolean order. -/
def sortLe {α : Type} (le : α → α → Bool) (xs : List α) : List α :=
  xs.foldr (insertLe le) []

/-- Sort a list of rationals ascending. -/
def sortQ (xs : List ℚ) : List ℚ := sortLe (fun a b => decide (a ≤ b)) xs

/-- The p-th percentile of a list of rationals, with linear
interpolation between order statistics (0 on the empty list). -/
def percentileQ (p : ℚ) (xs : List ℚ) : ℚ :=
  let s := sortQ xs
  if s.isEmpty then 0
  else
    let rank : ℚ := p / 100 * ((s.length : ℚ) - 1)
    let i : Nat := (⌊rank⌋).toNat
    let frac : ℚ := rank - (i : ℚ)
    s.getD i 0 + frac * (s.getD (i + 1) 0 - s.getD i 0)

/-- The three breakpoint threshold strategies the chunker can be
configured with. -/
inductive BreakpointThresholdType
  | percentile
  | standard_deviation
  | interquartile
  deriving DecidableEq, Repr

/-- Modelled from the spec: does adjacent-embedding distance `d` exceed
(strictly) the statistical threshold the strategy derives from the
distribution `dists` of all adjacent distances?  Thresholds: the 95th
percentile; mean + 3 standard deviations (stated equivalently over ℚ,
avoiding the irrational square root: for σ ≥ 0, d > μ + 3σ iff
d - μ > 0 and (d - μ)² > 9σ²); mean + 1.5 · interquartile range. -/
def exceedsThreshold (t : BreakpointThresholdType) (dists : List ℚ) (d : ℚ) : Bool :=
  match t with
  | .percentile => decide (percentileQ 95 dists < d)
  | .standard_deviation =>
      decide (0 < d - mean dists ∧ 9 * variance dists < (d - mean dists) ^ 2)
  | .interquartile =>
      decide (mean dists + 3 / 2 * (percentileQ 75 dists - percentileQ 25 dists) < d)

/-- Distances between the embeddings of adjacent candidate units. -/
def adjacentDistances (emb : Embedder) (dist : List ℚ → List ℚ → ℚ)
    (ss : List String) : List ℚ :=
  (ss.zip ss.tail).map (fun p => dist (emb.fn p.1) (emb.fn p.2))

/-- Group candidate units between breakpoints: `flags` are the
breakpoint decisions for the gaps after each unit; a `true` flag closes
the current group.  Zero units yield one (empty) group. -/
def splitFlags : List String → List Bool → List (List String)
  | [], _ => [[]]
  | [s], _ => [[s]]
  | s :: s2 :: rest, [] => [s :: s2 :: rest]
  | s :: s2 :: rest, f :: fs =>
    if f then [s] :: splitFlags (s2 :: rest) fs
    else
      match splitFlags (s2 :: rest) fs with
      | [] => [[s]]
      | g :: gs => (s :: g) :: gs

/-- Group the candidate units of a document using the configured
threshold strategy. -/
def chunkGroups (t : BreakpointThresholdType) (emb : Embedder)
    (dist : List ℚ → List ℚ → ℚ) (ss : List String) : List (List String) :=
  let dists := adjacentDistances emb dist ss
  splitFlags ss (dists.map (exceedsThreshold t dists))

/-- Modelled from the spec: the chunker on raw text — split into
candidate units, group between breakpoints, rejoin each group. -/
def split_text (t : BreakpointThresholdType) (emb : Embedder)
    (dist : List ℚ → List ℚ → ℚ) (text : String) : List String :=
  (chunkGroups t emb dist (splitSentences text)).map joinSentences

/-- The chunker method `split_documents`: chunk the text of each
document; every chunk inherits the metadata of its parent document. -/
def split_documents (t : BreakpointThresholdType) (emb : Embedder)
    (dist : List ℚ → List ℚ → ℚ) (docs : List Doc) : List Doc :=
  docs.flatMap (fun d => (split_text t emb dist d.page_content).map
    (fun c => { page_content := c, metadata := d.metadata }))

/-- The embed events the chunker emits: one per candidate unit of each
document, under the embedder handed to the chunker. -/
def chunkEvents (emb : Embedder) (docs : List Doc) : List Event :=
  (docs.flatMap (fun d => splitSentences d.page_content)).map
    (fun s => Event.embed emb.model_name Phase.chunking s)

/-! ## Vector store

Modelled from the spec (the implementation lives in the external
`langchain_chroma.Chroma`; the source constructs one instance holding
the shared embedding function).  `add_documents` embeds the text of
each document with the embedding function held by the store and appends
the entries; `similarity_search` embeds the query with that same
embedding function and returns the k entries nearest to it (closest first; fewer
than k when the store holds fewer than k entries). -/

/-- A persisted index entry: embedding vector, chunk text, metadata. -/
structure IndexEntry where
  embedding : List ℚ
  page_content : String
  metadata : Metadata
  deriving DecidableEq, Repr

/-- The vector store: the embedding function it was constructed with,
plus its persisted entries. -/
structure VectorStore where
  embedding_function : Embedder
  entries : List IndexEntry

/-- The method `Chroma.add_documents`: embed each document with the
embedding function held by the store and append all resulting entries,
returning the updated store and the embed events of the batch. -/
def add_documents (vs : VectorStore) (docs : List Doc) : VectorStore × List Event :=
  ({ vs with
      entries := vs.entries ++ docs.map (fun d =>
        { embedding := vs.embedding_function.fn d.page_content
          page_content := d.page_content
          metadata := d.metadata }) },
   docs.map (fun d => Event.embed vs.embedding_function.model_name Phase.indexing d.page_content))

/-- The method `Chroma.similarity_search`: embed the query with the
embedding function held by the store, rank entries by distance to the
query embedding (closest first) and return the first k, plus the query
embed event. -/
def similarity_search (dist : List ℚ → List ℚ → ℚ) (vs : VectorStore)
    (query : String) (k : Nat) : List Doc × Event :=
  let qv := vs.embedding_function.fn query
  let ranked := sortLe (fun e1 e2 =>
    decide (dist qv e1.embedding ≤ dist qv e2.embedding)) vs.entries
  ((ranked.take k).map (fun e =>
      { page_content := e.page_content, metadata := e.metadata }),
   Event.embed vs.embedding_function.model_name Phase.query query)

/-! ## Application state and externals -/

/-- Process-wide state: the module-level `embedding_function`, the
module-level `vector_store`, and the uploads directory contents
(path ↦ raw content, last write wins). -/
structure AppState where
  embedding_function : Embedder
  vector_store : VectorStore
  files : List (String × String)

/-- The external collaborators the handlers call out to: the two
document loaders (raw content ↦ loaded pages), the distance metric of
the vector backend, and the language model (prompt ↦ answer, or a
provider-side failure). -/
structure Externals where
  loadPdf : String → List Doc
  loadDocx : String → List Doc
  dist : List ℚ → List ℚ → ℚ
  llm : String → Except String String

/-- Python truthiness test of `os.getenv` results: `not API_KEY` holds
when the variable is unset or set to the empty string. -/
def pyFalsy : Option String → Bool
  | none => true
  | some s => s.isEmpty

/-- The fresh application state startup builds: one embedding-model
instance shared by the module global and the vector store, an empty
index, no files. -/
def initialState (fn : String → List ℚ) : AppState :=
  let embedding_function : Embedder := { model_name := MODEL_NAME, fn := fn }
  { embedding_function := embedding_function
    vector_store := { embedding_function := embedding_function, entries := [] }
    files := [] }

/-- Startup, from the source: `API_KEY = os.getenv("PPLX_API_KEY")`
followed by `if not API_KEY: raise ValueError(...)`; on success the
module-level AI components are constructed.  `pplxApiKey` is the value
of the `PPLX_API_KEY` environment variable (None when absent); `fn` is
the opaque embedding computation of the HuggingFace model. -/
def startup (fn : String → List ℚ) (pplxApiKey : Option String) :
    Except String AppState :=
  if pyFalsy pplxApiKey then
    Except.error "API Key not found! Make sure PPLX_API_KEY is in your .env file."
  else
    Except.ok (initialState fn)

/-! ## File persistence -/

/-- Write a file: overwrite any existing entry at the same path. -/
def setFile (files : List (String × String)) (path content : String) :
    List (String × String) :=
  (path, content) :: files.filter (fun kv => kv.1 != path)

/-- Read a file, if present. -/
def getFile (files : List (String × String)) (path : String) : Option String :=
  (files.find? (fun kv => kv.1 == path)).map (fun kv => kv.2)

/-- The Python test `str.endswith(suffix)`, as a character-level suffix test
(the `String.endsWith` of the library is byte-position based and is not
kernel-reducible; this definition is extensionally the same test). -/
def endswith (s suffix : String) : Bool := suffix.toList.isSuffixOf s.toList

/-! ## Prompt template -/

/-- The prompt template string from the source (`template`). -/
def template : String :=
  "\nYou are an intelligent assistant named \x27Context AI\x27. You have access to the following context (excerpts from user documents).\n\nCONTEXT FROM DOCUMENTS:\n{context}\n\nUSER QUESTION: \n{question}\n\nINSTRUCTIONS:\n1. **Structure your answer:** - Start with a direct answer in **bold**.\n   - Use a \x22Key Details\x22 section with bullet points for explanation.\n   - Never write long paragraphs; break them up.\n2. **Formatting:** Use Markdown (## Headers, * Bullets, **Bold**) strictly.\n3. **Sources:** If the answer is in the document, mention it. If not, state you are using general knowledge.\n\nEXAMPLE FORMAT:\n**The project name is Vitalyze.ai.**\n\n### Key Details\n* It is an AI-powered health hub.\n* The main goal is to simplify medical reports.\n* It features a comparative mode and a simple explanation mode.\n"

/-- Applying `ChatPromptTemplate.from_template(template)` to the
context and question: substitute both placeholders. -/
def buildPrompt (context question : String) : String :=
  (template.replace "{context}" context).replace "{question}" question

/-! ## Endpoints -/

/-- Response of `POST /upload/`: `{"status": "success", "chunks": n}`
or `{"error": msg}`. -/
inductive UploadResponse
  | success (chunks : Nat)
  | error (msg : String)
  deriving DecidableEq, Repr

/-- Response of `POST /chat/`: `{"response": ..., "source_docs": ...}`
on success; an unhandled exception escaping the handler is turned into
an HTTP 500 error response by the framework (`serverError`). -/
inductive ChatResponse
  | ok (response : String) (source_docs : List Metadata)
  | serverError (msg : String)
  deriving DecidableEq, Repr

/-- The `upload_document` handler, from the source.  `saveError` stands
for the outcome of the `shutil.copyfileobj` write (some message when it
raised).  Order as in the source: save the raw upload under its
original filename, then dispatch on the filename suffix; unsupported
suffixes get the structured error; otherwise load, chunk with the
module-level embedding function and the percentile strategy, add all
chunks to the vector store, and report the chunk count. -/
def upload_document (ext : Externals) (st : AppState) (filename content : String)
    (saveError : Option String) : AppState × UploadResponse × List Event :=
  let file_path := UPLOAD_DIR ++ "/" ++ filename
  match saveError with
  | some e => (st, UploadResponse.error ("Failed to save file: " ++ e), [])
  | none =>
    let st1 := { st with files := setFile st.files file_path content }
    let documents? : Option (List Doc) :=
      if endswith filename ".pdf" then some (ext.loadPdf content)
      else if endswith filename ".docx" then some (ext.loadDocx content)
      else none
    match documents? with
    | none => (st1, UploadResponse.error "Unsupported file format", [])
    | some documents =>
      let chunked_documents :=
        split_documents BreakpointThresholdType.percentile st1.embedding_function
          ext.dist documents
      let added := add_documents st1.vector_store chunked_documents
      ({ st1 with vector_store := added.1 },
       UploadResponse.success chunked_documents.length,
       chunkEvents st1.embedding_function documents ++ added.2)

/-- The `chat_endpoint` handler, from the source: retrieve the 3 most
similar chunks, join their texts with blank lines, build the prompt,
invoke the language model once (`chain.invoke`); a provider-side
failure escapes the handler and surfaces as an error response.  The
handler never mutates the application state. -/
def chat_endpoint (ext : Externals) (st : AppState) (question : String) :
    AppState × ChatResponse × List Event :=
  let user_question := question
  let searched := similarity_search ext.dist st.vector_store user_question 3
  let results := searched.1
  let context_text := String.intercalate "\n\n" (results.map (fun d => d.page_content))
  let promptText := buildPrompt context_text user_question
  let response :=
    match ext.llm promptText with
    | Except.error e => ChatResponse.serverError e
    | Except.ok r => ChatResponse.ok r (results.map (fun d => d.metadata))
  (st, response, [searched.2, Event.llmCall promptText])

/-! ## Request dispatch and traces -/

/-- A request the process can receive. -/
inductive Request
  | upload (filename content : String) (saveError : Option String)
  | chat (question : String)

/-- A response the process can return. -/
inductive Response
  | upload (r : UploadResponse)
  | chat (r : ChatResponse)
  deriving DecidableEq, Repr

/-- Dispatch one request to its handler. -/
def handle (ext : Externals) (st : AppState) : Request → AppState × Response × List Event
  | Request.upload filename content saveError =>
    let r := upload_document ext st filename content saveError
    (r.1, Response.upload r.2.1, r.2.2)
  | Request.chat question =>
    let r := chat_endpoint ext st question
    (r.1, Response.chat r.2.1, r.2.2)

/-- Run a sequence of requests from a state, collecting all events. -/
def run (ext : Externals) (st : AppState) : List Request → AppState × List Event
  | [] => (st, [])
  | r :: rs =>
    let step := handle ext st r
    let rest := run ext step.1 rs
    (rest.1, step.2.2 ++ rest.2)


/-- A concrete embedder separating the three strategies (vector = text
length). -/
def granEmbedder : Embedder := { model_name := MODEL_NAME, fn := fun s => [(s.length : ℚ)] }

/-- A concrete distance (absolute difference of first coordinates). -/
def granDist : List ℚ → List ℚ → ℚ := fun v w => |v.headD 0 - w.headD 0|

/-- A concrete candidate-unit sequence whose adjacent distances are
[0,0,0,0,0,0,0,0,4,5]. -/
def granSentences : List String :=
  ["a", "a", "a", "a", "a", "a", "a", "a", "a", "bbbbb", "cccccccccc"]

/-- A two-entry store used by witnesses. -/
def twoEntryStore : VectorStore :=
  { embedding_function := granEmbedder
    entries := [{ embedding := [1], page_content := "p", metadata := { source := "a.pdf", page := 0 } },
                { embedding := [2], page_content := "q", metadata := { source := "a.pdf", page := 1 } }] }

/-- The prompt `chat_endpoint` sends to the language model: the texts
of the 3 retrieved chunks joined with blank lines, substituted with the
question into the template. -/
def chatPrompt (ext : Externals) (st : AppState) (question : String) : String :=
  buildPrompt
    (String.intercalate "\n\n"
      ((similarity_search ext.dist st.vector_store question 3).1.map
        (fun d => d.page_content)))
    question

/-- The embedder-consistency invariant: the module-level embedding
function and the vector-store embedding function are both the startup
instance. -/
def embConsistent (e : Embedder) (st : AppState) : Prop :=
  st.embedding_function = e ∧ st.vector_store.embedding_function = e

/-- A concrete embedding computation for witnesses. -/
def wFn : String → List ℚ := fun _ => [0]

/-- Concrete external collaborators for witnesses (language model
answers successfully). -/
def wExt : Externals :=
  { loadPdf := fun c => [{ page_content := c, metadata := { source := "a.pdf", page := 0 } }]
    loadDocx := fun c => [{ page_content := c, metadata := { source := "b.docx", page := 0 } }]
    dist := granDist
    llm := fun _ => Except.ok "answer" }

/-- Concrete external collaborators whose language model always fails
provider-side. -/
def wExtFail : Externals := { wExt with llm := fun _ => Except.error "rate limited" }

/-- A concrete initial application state for witnesses. -/
def wSt : AppState := initialState wFn

/-! ## Helper lemmas -/

/-- The grouping function `splitFlags` never returns the empty list of
groups. -/
theorem splitFlags_ne_nil (ss : List String) (fs : List Bool) :
    splitFlags ss fs ≠ [] := by
  cases ss with
  | nil => simp [splitFlags]
  | cons s rest =>
    cases rest with
    | nil => simp [splitFlags]
    | cons s2 rest2 =>
      cases fs with
      | nil => simp [splitFlags]
      | cons f fs2 =>
        simp only [splitFlags]
        split
        · simp
        · split <;> simp

/-- Grouping candidate units between breakpoints loses and reorders
nothing: flattening the groups recovers the unit sequence. -/
theorem splitFlags_flatten (ss : List String) (fs : List Bool) :
    (splitFlags ss fs).flatten = ss := by
  induction ss generalizing fs with
  | nil => simp [splitFlags]
  | cons s rest ih =>
    cases rest with
    | nil => simp [splitFlags]
    | cons s2 rest2 =>
      cases fs with
      | nil => simp [splitFlags]
      | cons f fs2 =>
        cases f with
        | true => simp [splitFlags, ih]
        | false =>
          simp only [splitFlags, Bool.false_eq_true, if_false]
          cases h : splitFlags (s2 :: rest2) fs2 with
          | nil => exact absurd h (splitFlags_ne_nil _ _)
          | cons g gs =>
            have hf := ih fs2
            rw [h] at hf
            simp only [List.flatten_cons] at hf ⊢
            rw [List.cons_append, hf]

/-- With no breakpoint flag set, all candidate units form one group. -/
theorem splitFlags_of_all_false (ss : List String) (fs : List Bool)
    (h : ∀ f ∈ fs, f = false) : splitFlags ss fs = [ss] := by
  induction ss generalizing fs with
  | nil => simp [splitFlags]
  | cons s rest ih =>
    cases rest with
    | nil => simp [splitFlags]
    | cons s2 rest2 =>
      cases fs with
      | nil => simp [splitFlags]
      | cons f fs2 =>
        have hf : f = false := h f (List.mem_cons_self f fs2)
        subst hf
        simp only [splitFlags, Bool.false_eq_true, if_false]
        rw [ih fs2 (fun x hx => h x (List.mem_cons_of_mem _ hx))]

/-- Inserting into a list grows its length by one. -/
theorem length_insertLe {α : Type} (le : α → α → Bool) (x : α) (l : List α) :
    (insertLe le x l).length = l.length + 1 := by
  induction l with
  | nil => rfl
  | cons y ys ih =>
    simp only [insertLe]
    split <;> simp [ih]

/-- Insertion sort preserves length. -/
theorem length_sortLe {α : Type} (le : α → α → Bool) (l : List α) :
    (sortLe le l).length = l.length := by
  induction l with
  | nil => rfl
  | cons y ys ih => simp [sortLe, length_insertLe] at ih ⊢; simpa [sortLe] using ih

/-- Population variance is nonnegative. -/
theorem variance_nonneg (xs : List ℚ) : 0 ≤ variance xs := by
  unfold variance mean
  apply div_nonneg
  · apply List.sum_nonneg
    intro x hx
    simp only [List.mem_map] at hx
    obtain ⟨y, _, rfl⟩ := hx
    positivity
  · positivity

/-- Intercalating a one-element list of lists is that element. -/
theorem intercalate_one {α : Type} (sep : List α) (a : List α) :
    List.intercalate sep [a] = a := by
  simp [List.intercalate]


/-! ## C2: the breakpoint threshold strategy is a configuration option -/

theorem gran_len1 : ("a".length : ℚ) = 1 := by norm_num [String.length]

theorem gran_len5 : ("bbbbb".length : ℚ) = 5 := by norm_num [String.length]

theorem gran_len10 : ("cccccccccc".length : ℚ) = 10 := by norm_num [String.length]

theorem gran_dists :
    adjacentDistances granEmbedder granDist granSentences = [0, 0, 0, 0, 0, 0, 0, 0, 4, 5] := by
  norm_num [adjacentDistances, granEmbedder, granDist, granSentences,
    gran_len1, gran_len5, gran_len10]

theorem gran_toNat8 : Int.toNat 8 = 8 := rfl

theorem gran_toNat6 : Int.toNat 6 = 6 := rfl

theorem gran_toNat2 : Int.toNat 2 = 2 := rfl

theorem gran_percentile :
    (chunkGroups BreakpointThresholdType.percentile granEmbedder granDist granSentences).length
      = 2 := by
  simp only [chunkGroups, gran_dists]
  norm_num [exceedsThreshold, percentileQ, sortQ, sortLe, insertLe, splitFlags, granSentences,
    gran_toNat8, gran_toNat6, gran_toNat2, List.getD_cons_zero, List.getD_cons_succ]

theorem gran_stddev :
    (chunkGroups BreakpointThresholdType.standard_deviation granEmbedder granDist
      granSentences).length = 1 := by
  simp only [chunkGroups, gran_dists]
  norm_num [exceedsThreshold, mean, variance, splitFlags, granSentences]

theorem gran_iqr :
    (chunkGroups BreakpointThresholdType.interquartile granEmbedder granDist
      granSentences).length = 3 := by
  simp only [chunkGroups, gran_dists]
  norm_num [exceedsThreshold, percentileQ, sortQ, sortLe, insertLe, splitFlags, mean,
    granSentences, gran_toNat8, gran_toNat6, gran_toNat2, List.getD_cons_zero,
    List.getD_cons_succ]

/-- C2: the Semantic Chunker breakpoint threshold strategy is a
configuration option, not fixed logic.  The chunking operation is
defined for every strategy in {percentile, standard-deviation,
interquartile} and for each of them produces a valid chunking (the
groups partition the candidate-unit sequence in order: flattening the
groups recovers the sequence); and the strategies genuinely differ in
granularity: on a concrete document the three strategies produce 2, 1
and 3 chunks respectively. -/
theorem C2_threshold_strategy_configurable :
    (∀ (t : BreakpointThresholdType) (emb : Embedder) (dist : List ℚ → List ℚ → ℚ)
        (ss : List String), (chunkGroups t emb dist ss).flatten = ss) ∧
    ((chunkGroups BreakpointThresholdType.percentile granEmbedder granDist
        granSentences).length = 2 ∧
     (chunkGroups BreakpointThresholdType.standard_deviation granEmbedder granDist
        granSentences).length = 1 ∧
     (chunkGroups BreakpointThresholdType.interquartile granEmbedder granDist
        granSentences).length = 3) := by
  refine ⟨fun t emb dist ss => ?_, gran_percentile, gran_stddev, gran_iqr⟩
  simp only [chunkGroups]
  exact splitFlags_flatten _ _


/-! ## C7: chunker edge cases -/

/-- A document with at most one candidate unit is one chunk covering the
whole text. -/
theorem split_text_singleton (t : BreakpointThresholdType) (emb : Embedder)
    (dist : List ℚ → List ℚ → ℚ) (text : String)
    (h : (splitSentences text).length ≤ 1) :
    split_text t emb dist text = [text] := by
  have hne : text.toList.splitOn sentenceSep ≠ [] := by
    intro hnil
    have := List.splitOnP_ne_nil (fun c => c == sentenceSep) text.toList
    simp only [List.splitOn] at hnil
    exact this hnil
  cases hsp : text.toList.splitOn sentenceSep with
  | nil => exact absurd hsp hne
  | cons c rest =>
    cases rest with
    | cons c2 r2 =>
      exfalso
      rw [splitSentences, hsp] at h
      simp at h
    | nil =>
      have hrec : List.intercalate [sentenceSep] (text.toList.splitOn sentenceSep)
          = text.toList := List.intercalate_splitOn text.toList sentenceSep
      rw [hsp, intercalate_one] at hrec
      have hss : splitSentences text = [String.mk c] := by
        rw [splitSentences, hsp]; rfl
      rw [split_text, hss]
      show [String.mk (List.intercalate [sentenceSep] [c])] = [text]
      rw [intercalate_one, hrec]
      rfl

/-- C7: a document whose text yields zero or one sentence-level
candidate unit chunks to exactly one chunk covering all of its text
(the splitter always yields at least one candidate, so the hypothesis
is a length bound of one); and for every strategy the breakpoint test
is a strict comparison against a single real threshold: distances equal
to or below the threshold never split, only strictly greater ones do. -/
theorem C7_chunker_edge_cases :
    (∀ (t : BreakpointThresholdType) (emb : Embedder) (dist : List ℚ → List ℚ → ℚ)
        (text : String), (splitSentences text).length ≤ 1 →
        split_text t emb dist text = [text]) ∧
    (∀ (t : BreakpointThresholdType) (dists : List ℚ),
        ∃ θ : ℝ, ∀ d : ℚ, exceedsThreshold t dists d = true ↔ θ < (d : ℝ)) := by
  refine ⟨split_text_singleton, fun t dists => ?_⟩
  cases t with
  | percentile =>
    refine ⟨((percentileQ 95 dists : ℚ) : ℝ), fun d => ?_⟩
    rw [exceedsThreshold, decide_eq_true_iff]
    constructor <;> intro h <;> exact_mod_cast h
  | interquartile =>
    refine ⟨((mean dists + 3 / 2 * (percentileQ 75 dists - percentileQ 25 dists) : ℚ) : ℝ),
      fun d => ?_⟩
    rw [exceedsThreshold, decide_eq_true_iff]
    constructor <;> intro h <;> exact_mod_cast h
  | standard_deviation =>
    refine ⟨((mean dists : ℚ) : ℝ) + 3 * Real.sqrt ((variance dists : ℚ) : ℝ), fun d => ?_⟩
    rw [exceedsThreshold, decide_eq_true_iff]
    have hv : (0 : ℝ) ≤ ((variance dists : ℚ) : ℝ) := by exact_mod_cast variance_nonneg dists
    have hsq : Real.sqrt ((variance dists : ℚ) : ℝ) ^ 2 = ((variance dists : ℚ) : ℝ) :=
      Real.sq_sqrt hv
    have hs0 : 0 ≤ Real.sqrt ((variance dists : ℚ) : ℝ) := Real.sqrt_nonneg _
    constructor
    · rintro ⟨h1, h2⟩
      have h1r : (0 : ℝ) < (d : ℝ) - ((mean dists : ℚ) : ℝ) := by exact_mod_cast h1
      have h2r : 9 * ((variance dists : ℚ) : ℝ) < ((d : ℝ) - ((mean dists : ℚ) : ℝ)) ^ 2 := by
        exact_mod_cast h2
      by_contra hcon
      push_neg at hcon
      have hx : (d : ℝ) - ((mean dists : ℚ) : ℝ)
          ≤ 3 * Real.sqrt ((variance dists : ℚ) : ℝ) := by linarith
      have hsq2 : ((d : ℝ) - ((mean dists : ℚ) : ℝ)) ^ 2
          ≤ (3 * Real.sqrt ((variance dists : ℚ) : ℝ)) ^ 2 := by
        apply sq_le_sq' _ hx
        linarith
      have h9 : (3 * Real.sqrt ((variance dists : ℚ) : ℝ)) ^ 2
          = 9 * ((variance dists : ℚ) : ℝ) := by
        rw [mul_pow, hsq]; norm_num
      linarith
    · intro h
      have hx : 3 * Real.sqrt ((variance dists : ℚ) : ℝ)
          < (d : ℝ) - ((mean dists : ℚ) : ℝ) := by linarith
      have h1r : (0 : ℝ) < (d : ℝ) - ((mean dists : ℚ) : ℝ) :=
        lt_of_le_of_lt (by positivity) hx
      have h2r : 9 * ((variance dists : ℚ) : ℝ)
          < ((d : ℝ) - ((mean dists : ℚ) : ℝ)) ^ 2 := by
        have := pow_lt_pow_left₀ hx (by positivity) (two_ne_zero)
        rw [mul_pow, hsq] at this
        linarith
      constructor
      · exact_mod_cast h1r
      · exact_mod_cast h2r

/-- Witness for C7 at a concrete single-sentence document and the
percentile strategy on an empty distance list. -/
theorem C7_witness :
    (splitSentences "hello").length ≤ 1 ∧
    split_text BreakpointThresholdType.percentile granEmbedder granDist "hello" = ["hello"] :=
  ⟨by decide, C7_chunker_edge_cases.1 BreakpointThresholdType.percentile granEmbedder granDist
    "hello" (by decide)⟩


/-! ## C5: similarity search on empty and under-filled indexes -/

/-- C5: similarity search on an empty vector store returns the empty
result list (no error is possible: the function is total); and when the
store holds n < k entries, searching with parameter k returns exactly n
results. -/
theorem C5_search_underfill (dist : List ℚ → List ℚ → ℚ) (vs : VectorStore)
    (query : String) (k : Nat) :
    (vs.entries = [] → (similarity_search dist vs query k).1 = []) ∧
    (vs.entries.length < k →
      (similarity_search dist vs query k).1.length = vs.entries.length) := by
  constructor
  · intro h
    simp [similarity_search, h, sortLe]
  · intro h
    simp only [similarity_search, List.length_map, List.length_take, length_sortLe]
    omega

/-- Witness for C5: the empty store yields no results, and a 2-entry
store searched with k = 3 yields exactly 2 results. -/
theorem C5_witness :
    (similarity_search granDist { embedding_function := granEmbedder, entries := [] } "q" 3).1
        = [] ∧
    (similarity_search granDist twoEntryStore "q" 3).1.length = 2 :=
  ⟨(C5_search_underfill granDist { embedding_function := granEmbedder, entries := [] } "q" 3).1
      rfl,
   (C5_search_underfill granDist twoEntryStore "q" 3).2 (by decide)⟩

/-! ## C8: startup credential check (corrected) -/

/-- Counterexample to C8 as stated: the claim says that whenever
`PPLX_API_KEY` is present in the environment, startup proceeds; but
with the key present and equal to the empty string (`os.getenv` returns
`""`, which is falsy in Python), startup raises instead of
proceeding. -/
theorem C8_counterexample_empty_key :
    startup (fun _ => [0]) (some "")
      = Except.error "API Key not found! Make sure PPLX_API_KEY is in your .env file." := rfl

/-- C8 (amended): if `PPLX_API_KEY` is absent from the environment, or
present but empty, startup fails (and hence serves no request: no
application state is constructed); if it is present and non-empty,
startup proceeds with the initial application state. -/
theorem C8_startup_key_check (fn : String → List ℚ) :
    startup fn none
        = Except.error "API Key not found! Make sure PPLX_API_KEY is in your .env file." ∧
    startup fn (some "")
        = Except.error "API Key not found! Make sure PPLX_API_KEY is in your .env file." ∧
    (∀ s : String, s ≠ "" → startup fn (some s) = Except.ok (initialState fn)) := by
  refine ⟨rfl, rfl, fun s hs => ?_⟩
  have hemp : s.isEmpty = false := by
    rw [← Bool.not_eq_true, String.isEmpty_iff]
    exact hs
  simp [startup, pyFalsy, hemp]

/-- Witness for C8 (amended) at a concrete non-empty key. -/
theorem C8_witness :
    ("k" : String) ≠ "" ∧
    startup (fun _ => [(0 : ℚ)]) (some "k") = Except.ok (initialState (fun _ => [(0 : ℚ)])) :=
  ⟨by decide, (C8_startup_key_check (fun _ => [(0 : ℚ)])).2.2 "k" (by decide)⟩


/-! ## C3: unsupported upload formats are rejected without indexing -/

/-- C3: an upload whose filename ends in neither `.pdf` nor `.docx`
gets the structured unsupported-format error and adds zero entries to
the vector index. -/
theorem C3_unsupported_format_rejected (ext : Externals) (st : AppState)
    (filename content : String)
    (h1 : endswith filename ".pdf" = false) (h2 : endswith filename ".docx" = false) :
    (upload_document ext st filename content none).2.1
        = UploadResponse.error "Unsupported file format" ∧
    (upload_document ext st filename content none).1.vector_store.entries
        = st.vector_store.entries := by
  simp [upload_document, h1, h2]

/-- Witness for C3 at a `.txt` upload. -/
theorem C3_witness :
    endswith "notes.txt" ".pdf" = false ∧ endswith "notes.txt" ".docx" = false ∧
    (upload_document wExt wSt "notes.txt" "hi" none).2.1
        = UploadResponse.error "Unsupported file format" ∧
    (upload_document wExt wSt "notes.txt" "hi" none).1.vector_store.entries
        = wSt.vector_store.entries :=
  ⟨rfl, rfl,
   (C3_unsupported_format_rejected wExt wSt "notes.txt" "hi" rfl rfl).1,
   (C3_unsupported_format_rejected wExt wSt "notes.txt" "hi" rfl rfl).2⟩


/-! ## C4: a successful upload indexes all produced chunks before responding -/

/-- C4: for a supported upload (`.pdf` or `.docx`) whose save succeeds,
the returned state already contains every chunk the chunker produced
from the loaded document, appended to the index as one batch, and the
response is success with exactly that chunk count.  (The model is
sequential: the returned state is the state observable when the HTTP
response returns.) -/
theorem C4_upload_adds_all_chunks (ext : Externals) (st : AppState)
    (filename content : String) :
    (endswith filename ".pdf" = true →
      (upload_document ext st filename content none).2.1
        = UploadResponse.success
            (split_documents BreakpointThresholdType.percentile st.embedding_function
              ext.dist (ext.loadPdf content)).length ∧
      (upload_document ext st filename content none).1.vector_store.entries
        = st.vector_store.entries
          ++ (split_documents BreakpointThresholdType.percentile st.embedding_function
              ext.dist (ext.loadPdf content)).map (fun d =>
                { embedding := st.vector_store.embedding_function.fn d.page_content
                  page_content := d.page_content
                  metadata := d.metadata })) ∧
    (endswith filename ".pdf" = false → endswith filename ".docx" = true →
      (upload_document ext st filename content none).2.1
        = UploadResponse.success
            (split_documents BreakpointThresholdType.percentile st.embedding_function
              ext.dist (ext.loadDocx content)).length ∧
      (upload_document ext st filename content none).1.vector_store.entries
        = st.vector_store.entries
          ++ (split_documents BreakpointThresholdType.percentile st.embedding_function
              ext.dist (ext.loadDocx content)).map (fun d =>
                { embedding := st.vector_store.embedding_function.fn d.page_content
                  page_content := d.page_content
                  metadata := d.metadata })) := by
  constructor
  · intro h1
    constructor <;> simp [upload_document, add_documents, h1]
  · intro h1 h2
    constructor <;> simp [upload_document, add_documents, h1, h2]

/-- Witness for C4 at a concrete one-page `.pdf` upload. -/
theorem C4_witness :
    endswith "a.pdf" ".pdf" = true ∧
    (upload_document wExt wSt "a.pdf" "hello" none).2.1
      = UploadResponse.success
          (split_documents BreakpointThresholdType.percentile wSt.embedding_function
            wExt.dist (wExt.loadPdf "hello")).length ∧
    (upload_document wExt wSt "a.pdf" "hello" none).1.vector_store.entries
      = wSt.vector_store.entries
        ++ (split_documents BreakpointThresholdType.percentile wSt.embedding_function
            wExt.dist (wExt.loadPdf "hello")).map (fun d =>
              { embedding := wSt.vector_store.embedding_function.fn d.page_content
                page_content := d.page_content
                metadata := d.metadata }) :=
  ⟨rfl, ((C4_upload_adds_all_chunks wExt wSt "a.pdf" "hello").1 rfl).1,
   ((C4_upload_adds_all_chunks wExt wSt "a.pdf" "hello").1 rfl).2⟩


/-! ## C9: the raw file is persisted before the format check -/

/-- Writing then reading the same path yields the written content. -/
theorem getFile_setFile (fs : List (String × String)) (p c : String) :
    getFile (setFile fs p c) p = some c := by
  simp [getFile, setFile]

/-- C9: every upload whose save succeeds persists the raw file in the
uploads directory under its original filename (overwriting any previous
entry at that path, for any prior file state) before the format check
runs; in particular an upload rejected as unsupported still leaves the
raw file on disk. -/
theorem C9_file_persisted_before_format_check (ext : Externals) (st : AppState)
    (filename content : String) :
    getFile (upload_document ext st filename content none).1.files
        (UPLOAD_DIR ++ "/" ++ filename) = some content ∧
    (endswith filename ".pdf" = false → endswith filename ".docx" = false →
      (upload_document ext st filename content none).2.1
        = UploadResponse.error "Unsupported file format") := by
  constructor
  · by_cases h1 : endswith filename ".pdf" = true
    · simp [upload_document, h1, getFile_setFile]
    · by_cases h2 : endswith filename ".docx" = true
      · simp [upload_document, h1, h2, getFile_setFile]
      · simp [upload_document, h1, h2, getFile_setFile]
  · intro h1 h2
    simp [upload_document, h1, h2]

/-- Witness for C9: a rejected `.txt` upload, over a state that already
holds an older file at the same path, both persists the new content and
returns the unsupported-format error. -/
theorem C9_witness :
    getFile (upload_document wExt
        { wSt with files := [("uploaded_files/notes.txt", "old")] }
        "notes.txt" "new" none).1.files
      ("uploaded_files" ++ "/" ++ "notes.txt") = some "new" ∧
    (upload_document wExt { wSt with files := [("uploaded_files/notes.txt", "old")] }
        "notes.txt" "new" none).2.1
      = UploadResponse.error "Unsupported file format" :=
  ⟨(C9_file_persisted_before_format_check wExt
      { wSt with files := [("uploaded_files/notes.txt", "old")] } "notes.txt" "new").1,
   (C9_file_persisted_before_format_check wExt
      { wSt with files := [("uploaded_files/notes.txt", "old")] } "notes.txt" "new").2 rfl rfl⟩


/-! ## C1: provider-side language-model failures surface as error responses -/

/-- C1: when the language-model call fails, the chat handler surfaces
exactly that failure as an error response to the caller of this
request; the
language model is invoked exactly once (no automatic retry); and the
process remains healthy: the application state is unchanged, so every
subsequent request behaves exactly as it would have before the failing
request. -/
theorem C1_generation_error_surfaced (ext : Externals) (st : AppState)
    (question e : String)
    (h : ext.llm (chatPrompt ext st question) = Except.error e) :
    chat_endpoint ext st question
      = (st, ChatResponse.serverError e,
         [(similarity_search ext.dist st.vector_store question 3).2,
          Event.llmCall (chatPrompt ext st question)]) ∧
    ((chat_endpoint ext st question).2.2.filter Event.isLlmCall).length = 1 ∧
    (∀ r : Request, handle ext (chat_endpoint ext st question).1 r = handle ext st r) := by
  rw [chatPrompt] at h
  have hmain : chat_endpoint ext st question
      = (st, ChatResponse.serverError e,
         [(similarity_search ext.dist st.vector_store question 3).2,
          Event.llmCall (chatPrompt ext st question)]) := by
    simp only [chat_endpoint, chatPrompt]
    rw [h]
  refine ⟨hmain, ?_, fun r => ?_⟩
  · rw [hmain]
    simp [similarity_search, Event.isLlmCall]
  · rw [hmain]

/-- Witness for C1: a language model that always fails with a rate
limit; the chat request returns exactly that error, with one model
invocation. -/
theorem C1_witness :
    chat_endpoint wExtFail wSt "hi"
      = (wSt, ChatResponse.serverError "rate limited",
         [(similarity_search wExtFail.dist wSt.vector_store "hi" 3).2,
          Event.llmCall (chatPrompt wExtFail wSt "hi")]) ∧
    ((chat_endpoint wExtFail wSt "hi").2.2.filter Event.isLlmCall).length = 1 :=
  ⟨(C1_generation_error_surfaced wExtFail wSt "hi" "rate limited" rfl).1,
   (C1_generation_error_surfaced wExtFail wSt "hi" "rate limited" rfl).2.1⟩

/-! ## C10: the chat retrieval contract -/

/-- C10: every chat request retrieves with exactly k = 3 from the
vector store (so at most 3 results); the single prompt sent to the
language model is the template filled with the retrieved chunk texts
joined by blank lines (`chatPrompt`); and on success the response
carries `source_docs` equal to the metadata of exactly the retrieved
chunks, in retrieval order. -/
theorem C10_chat_retrieval_contract (ext : Externals) (st : AppState) (question : String) :
    (similarity_search ext.dist st.vector_store question 3).1.length ≤ 3 ∧
    (chat_endpoint ext st question).2.2
      = [(similarity_search ext.dist st.vector_store question 3).2,
         Event.llmCall (chatPrompt ext st question)] ∧
    (∀ r : String, ext.llm (chatPrompt ext st question) = Except.ok r →
      (chat_endpoint ext st question).2.1
        = ChatResponse.ok r
            ((similarity_search ext.dist st.vector_store question 3).1.map
              (fun d => d.metadata))) := by
  refine ⟨?_, rfl, fun r hr => ?_⟩
  · simp only [similarity_search, List.length_map, List.length_take]
    exact min_le_left _ _
  · rw [chatPrompt] at hr
    simp only [chat_endpoint]
    rw [hr]

/-- Witness for C10 on an always-successful language model. -/
theorem C10_witness :
    (similarity_search wExt.dist wSt.vector_store "hi" 3).1.length ≤ 3 ∧
    (chat_endpoint wExt wSt "hi").2.1
      = ChatResponse.ok "answer"
          ((similarity_search wExt.dist wSt.vector_store "hi" 3).1.map
            (fun d => d.metadata)) :=
  ⟨(C10_chat_retrieval_contract wExt wSt "hi").1,
   (C10_chat_retrieval_contract wExt wSt "hi").2.2 "answer" rfl⟩


/-! ## C6: one embedding model across ingestion and query -/

/-- Handling any single request preserves the embedder-consistency
invariant and emits only embed events carrying the startup model. -/
theorem handle_embConsistent (ext : Externals) (e : Embedder) (st : AppState)
    (r : Request) (h : embConsistent e st) :
    embConsistent e (handle ext st r).1 ∧
    (((handle ext st r).2.2.filterMap Event.modelOf).all
      (fun m => m == e.model_name)) = true := by
  obtain ⟨h1, h2⟩ := h
  cases r with
  | chat q =>
    refine ⟨⟨h1, h2⟩, ?_⟩
    simp [handle, chat_endpoint, similarity_search, Event.modelOf, h2]
  | upload filename content saveError =>
    cases saveError with
    | some msg => exact ⟨⟨h1, h2⟩, rfl⟩
    | none =>
      by_cases hp : endswith filename ".pdf" = true
      · refine ⟨?_, ?_⟩
        · simp [embConsistent, handle, upload_document, add_documents, hp, h1, h2]
        · simp [handle, upload_document, add_documents, chunkEvents, Event.modelOf, hp, h1, h2]
      · by_cases hd : endswith filename ".docx" = true
        · refine ⟨?_, ?_⟩
          · simp [embConsistent, handle, upload_document, add_documents, hp, hd, h1, h2]
          · simp [handle, upload_document, add_documents, chunkEvents, Event.modelOf,
              hp, hd, h1, h2]
        · refine ⟨?_, ?_⟩
          · simp [embConsistent, handle, upload_document, hp, hd, h1, h2]
          · simp [handle, upload_document, hp, hd]

/-- Along any run, all embed events carry the startup model name. -/
theorem run_embed_models (ext : Externals) (e : Embedder) (st : AppState)
    (reqs : List Request) (h : embConsistent e st) :
    (((run ext st reqs).2.filterMap Event.modelOf).all
      (fun m => m == e.model_name)) = true := by
  induction reqs generalizing st with
  | nil => rfl
  | cons r rs ih =>
    have hh := handle_embConsistent ext e st r h
    simp only [run, List.filterMap_append, List.all_append]
    rw [hh.2, ih _ hh.1]
    rfl

/-- C6: over the whole process lifetime — any sequence of upload and
chat requests from startup — every embedding-model invocation (chunking
embeds, ingestion embeds, query embeds) uses the single startup
embedder instance, so each query is embedded with the same model that
embedded the indexed chunks. -/
theorem C6_embedder_consistency (fn : String → List ℚ) (ext : Externals)
    (reqs : List Request) :
    (((run ext (initialState fn) reqs).2.filterMap Event.modelOf).all
      (fun m => m == MODEL_NAME)) = true :=
  run_embed_models ext { model_name := MODEL_NAME, fn := fn } (initialState fn) reqs
    ⟨rfl, rfl⟩

end ContextAI
